import Mathlib

/-!
Shallow embedding of the GAW-MR-control firmware headers
(GerardWassink/GAW-MR-control): the element tables, key matrix, multiplexer
addresses, and the parts of the control loop the specification describes.

The repository's `src` holds only the header files; the main sketch (the
Arduino `.ino` with the command-processing loop, EEPROM persistence and LED
writing) is not among them.  Where a claim depends on that missing code, the
corresponding definition below is modelled from the spec and says so in its
doc comment.
-/

set_option maxHeartbeats 1000000

namespace GAWMRControl

/-! ## Constants from GAW_MR_defines.h (GAW_MR.h lines 83–112 agree on values) -/

def POWEROFF : Int := 0

def POWERON : Int := 1

def STRAIGHT : Int := 0

def THROWN : Int := 1

def FORWARD : Int := 1

def STOP : Int := 0

def REVERSE : Int := -1

/-- GAW_MR.h line 98 only: `#define UNUSED -1`. -/
def UNUSED : Int := -1

def TYPE_SWITCH : Int := 0

def TYPE_LOCO : Int := 1

/-- GAW_MR.h line 101 names the same value `TYPE_LOCOMOTIVE`. -/
def TYPE_LOCOMOTIVE : Int := 1

def TYPE_FUNCTION : Int := 90

def TYPE_POWER : Int := 99

def NO_MODULE : Int := 0

def MODULE_NWW : Int := 1

def MODULE_NW : Int := 2

def MODULE_NE : Int := 3

def MODULE_NEE : Int := 4

def MODULE_SWW : Int := 5

def MODULE_SW : Int := 6

def MODULE_SE : Int := 7

def MODULE_SEE : Int := 8

def FUNC_STORE : Int := 9001

def FUNC_RECALL : Int := 9002

def FUNC_ACTIVATE : Int := 9003

def FUNC_SHOW : Int := 9004

def FUNC_FORWARD : Int := 9101

def FUNC_STOP : Int := 9102

def FUNC_REVERSE : Int := 9103

def FUNC_LIGHTS : Int := 9104

def FUNC_SOUND : Int := 9105

def FUNC_WHISTLE : Int := 9106

def FUNC_HORN : Int := 9107

def FUNC_TWOTONE : Int := 9108

def FUNC_POWER : Int := 9999

/-! ## The element record (struct MR_data)

GAW_MR_layout.h lines 20–26 declare `int type; int module; uint16_t address;
byte state; int state2;`.  GAW_MR.h lines 129–135 declare all five fields
`int`.  Field values are carried as `Int`; the narrowing the layout header's
`uint16_t`/`byte` fields perform on assignment is made explicit by
`uint16Field`/`byteField` in the layout table's row constructor `mkLayout`. -/

structure MR_data where
  type : Int
  module : Int
  address : Int
  state : Int
  state2 : Int
deriving DecidableEq

/-- C conversion of an `int` value into GAW_MR_layout.h's `byte`-typed
`state` field (uint8_t), read back in an `int` context: reduction mod 256. -/
def byteField (v : Int) : Int := v.emod 256

/-- C conversion of an `int` value into GAW_MR_layout.h's `uint16_t`-typed
`address` field, read back in an `int` context: reduction mod 65536. -/
def uint16Field (v : Int) : Int := v.emod 65536

/-- One initializer row of GAW_MR_layout.h's `element[]`, with the declared
field types' narrowing applied. -/
def mkLayout (t m a s s2 : Int) : MR_data :=
  ⟨t, m, uint16Field a, byteField s, s2⟩

namespace GAW_MR_layout

/-- `element[]` of GAW_MR_layout.h lines 34–152, row for row. -/
def element : List MR_data := [
  -- Layout module 1
  mkLayout TYPE_SWITCH MODULE_NWW 101 STRAIGHT 0,
  mkLayout TYPE_SWITCH MODULE_NWW 102 STRAIGHT 0,
  mkLayout TYPE_SWITCH MODULE_NWW 103 STRAIGHT 0,
  mkLayout TYPE_SWITCH MODULE_NWW 104 STRAIGHT 0,
  -- Layout module 2
  mkLayout TYPE_SWITCH MODULE_NW 201 STRAIGHT 0,
  mkLayout TYPE_SWITCH MODULE_NW 202 STRAIGHT 0,
  mkLayout TYPE_SWITCH MODULE_NW 203 STRAIGHT 0,
  -- Layout module 4
  mkLayout TYPE_SWITCH MODULE_NEE 401 STRAIGHT 0,
  mkLayout TYPE_SWITCH MODULE_NEE 402 STRAIGHT 0,
  mkLayout TYPE_SWITCH MODULE_NEE 403 STRAIGHT 0,
  mkLayout TYPE_SWITCH MODULE_NEE 404 STRAIGHT 0,
  mkLayout TYPE_SWITCH MODULE_NEE 405 STRAIGHT 0,
  mkLayout TYPE_SWITCH MODULE_NEE 406 STRAIGHT 0,
  mkLayout TYPE_SWITCH MODULE_NEE 407 STRAIGHT 0,
  -- Layout module 5
  mkLayout TYPE_SWITCH MODULE_SWW 501 STRAIGHT 0,
  mkLayout TYPE_SWITCH MODULE_SWW 502 STRAIGHT 0,
  -- Layout module 6
  mkLayout TYPE_SWITCH MODULE_SW 601 STRAIGHT 0,
  mkLayout TYPE_SWITCH MODULE_SW 602 STRAIGHT 0,
  mkLayout TYPE_SWITCH MODULE_SW 603 STRAIGHT 0,
  -- Layout module 7
  mkLayout TYPE_SWITCH MODULE_SE 701 STRAIGHT 0,
  -- Layout module 8
  mkLayout TYPE_SWITCH MODULE_SEE 801 STRAIGHT 0,
  mkLayout TYPE_SWITCH MODULE_SEE 802 STRAIGHT 0,
  mkLayout TYPE_SWITCH MODULE_SEE 803 STRAIGHT 0,
  mkLayout TYPE_SWITCH MODULE_SEE 804 STRAIGHT 0,
  mkLayout TYPE_SWITCH MODULE_SEE 805 STRAIGHT 0,
  -- 7 spare switch positions, for possible future expansion
  mkLayout TYPE_SWITCH NO_MODULE 0 0 0,
  mkLayout TYPE_SWITCH NO_MODULE 0 0 0,
  mkLayout TYPE_SWITCH NO_MODULE 0 0 0,
  mkLayout TYPE_SWITCH NO_MODULE 0 0 0,
  mkLayout TYPE_SWITCH NO_MODULE 0 0 0,
  mkLayout TYPE_SWITCH NO_MODULE 0 0 0,
  mkLayout TYPE_SWITCH NO_MODULE 0 0 0,
  -- My locomotives
  mkLayout TYPE_LOCO NO_MODULE 344 1 0,
  mkLayout TYPE_LOCO NO_MODULE 386 1 0,
  mkLayout TYPE_LOCO NO_MODULE 611 1 0,
  mkLayout TYPE_LOCO NO_MODULE 612 1 0,
  mkLayout TYPE_LOCO NO_MODULE 2412 1 0,
  -- General Functions
  mkLayout TYPE_FUNCTION NO_MODULE FUNC_STORE 0 0,
  mkLayout TYPE_FUNCTION NO_MODULE FUNC_RECALL 0 0,
  mkLayout TYPE_FUNCTION NO_MODULE FUNC_ACTIVATE 0 0,
  mkLayout TYPE_FUNCTION NO_MODULE FUNC_SHOW 0 0,
  -- Loc Functions
  mkLayout TYPE_FUNCTION NO_MODULE FUNC_FORWARD 0 0,
  mkLayout TYPE_FUNCTION NO_MODULE FUNC_STOP 0 0,
  mkLayout TYPE_FUNCTION NO_MODULE FUNC_REVERSE 0 0,
  mkLayout TYPE_FUNCTION NO_MODULE FUNC_LIGHTS 0 0,
  mkLayout TYPE_FUNCTION NO_MODULE FUNC_SOUND 0 0,
  mkLayout TYPE_FUNCTION NO_MODULE FUNC_WHISTLE 0 0,
  mkLayout TYPE_FUNCTION NO_MODULE FUNC_HORN 0 0,
  mkLayout TYPE_FUNCTION NO_MODULE FUNC_TWOTONE 0 0,
  -- POWER
  mkLayout TYPE_POWER NO_MODULE FUNC_POWER POWERON 0
]

end GAW_MR_layout

namespace GAW_MR

/-- `element[]` of GAW_MR.h lines 143–257, row for row (all fields `int`). -/
def element : List MR_data := [
  -- Layout module 1
  ⟨TYPE_SWITCH, 1, 101, STRAIGHT, THROWN⟩,
  ⟨TYPE_SWITCH, 1, 102, STRAIGHT, THROWN⟩,
  ⟨TYPE_SWITCH, 1, 103, STRAIGHT, THROWN⟩,
  ⟨TYPE_SWITCH, 1, 104, STRAIGHT, THROWN⟩,
  -- Layout module 2
  ⟨TYPE_SWITCH, 2, 201, STRAIGHT, THROWN⟩,
  ⟨TYPE_SWITCH, 2, 202, STRAIGHT, THROWN⟩,
  ⟨TYPE_SWITCH, 2, 203, STRAIGHT, THROWN⟩,
  -- Layout module 4
  ⟨TYPE_SWITCH, 4, 401, STRAIGHT, THROWN⟩,
  ⟨TYPE_SWITCH, 4, 402, STRAIGHT, THROWN⟩,
  ⟨TYPE_SWITCH, 4, 403, STRAIGHT, THROWN⟩,
  ⟨TYPE_SWITCH, 4, 404, STRAIGHT, THROWN⟩,
  ⟨TYPE_SWITCH, 4, 405, STRAIGHT, THROWN⟩,
  ⟨TYPE_SWITCH, 4, 406, STRAIGHT, THROWN⟩,
  ⟨TYPE_SWITCH, 4, 407, STRAIGHT, THROWN⟩,
  -- Layout module 5
  ⟨TYPE_SWITCH, 5, 501, STRAIGHT, THROWN⟩,
  ⟨TYPE_SWITCH, 5, 502, STRAIGHT, THROWN⟩,
  -- Layout module 6
  ⟨TYPE_SWITCH, 6, 601, STRAIGHT, THROWN⟩,
  ⟨TYPE_SWITCH, 6, 602, STRAIGHT, THROWN⟩,
  ⟨TYPE_SWITCH, 6, 603, STRAIGHT, THROWN⟩,
  -- Layout module 7
  ⟨TYPE_SWITCH, 7, 701, STRAIGHT, THROWN⟩,
  -- Layout module 8
  ⟨TYPE_SWITCH, 8, 801, STRAIGHT, THROWN⟩,
  ⟨TYPE_SWITCH, 8, 802, STRAIGHT, THROWN⟩,
  ⟨TYPE_SWITCH, 8, 803, STRAIGHT, THROWN⟩,
  ⟨TYPE_SWITCH, 8, 804, STRAIGHT, THROWN⟩,
  ⟨TYPE_SWITCH, 8, 805, STRAIGHT, THROWN⟩,
  -- 7 spare switch positions, for possible future expansion
  ⟨TYPE_SWITCH, 0, 0, STRAIGHT, THROWN⟩,
  ⟨TYPE_SWITCH, 0, 0, STRAIGHT, THROWN⟩,
  ⟨TYPE_SWITCH, 0, 0, STRAIGHT, THROWN⟩,
  ⟨TYPE_SWITCH, 0, 0, STRAIGHT, THROWN⟩,
  ⟨TYPE_SWITCH, 0, 0, STRAIGHT, THROWN⟩,
  ⟨TYPE_SWITCH, 0, 0, STRAIGHT, THROWN⟩,
  ⟨TYPE_SWITCH, 0, 0, STRAIGHT, THROWN⟩,
  -- My locomotives
  ⟨TYPE_LOCOMOTIVE, 0, 344, FORWARD, 0⟩,
  ⟨TYPE_LOCOMOTIVE, 0, 386, FORWARD, 0⟩,
  ⟨TYPE_LOCOMOTIVE, 0, 611, FORWARD, 0⟩,
  ⟨TYPE_LOCOMOTIVE, 0, 612, FORWARD, 0⟩,
  ⟨TYPE_LOCOMOTIVE, 0, 2412, FORWARD, 0⟩,
  -- General Functions (Store, Recall, Show)
  ⟨TYPE_FUNCTION, 0, 9001, UNUSED, UNUSED⟩,
  ⟨TYPE_FUNCTION, 0, 9002, UNUSED, UNUSED⟩,
  ⟨TYPE_FUNCTION, 0, 9003, UNUSED, UNUSED⟩,
  -- Loc Functions
  ⟨TYPE_FUNCTION, 0, 9101, UNUSED, UNUSED⟩,
  ⟨TYPE_FUNCTION, 0, 9102, UNUSED, UNUSED⟩,
  ⟨TYPE_FUNCTION, 0, 9103, UNUSED, UNUSED⟩,
  ⟨TYPE_FUNCTION, 0, 9104, UNUSED, UNUSED⟩,
  ⟨TYPE_FUNCTION, 0, 9105, UNUSED, UNUSED⟩,
  ⟨TYPE_FUNCTION, 0, 9106, UNUSED, UNUSED⟩,
  ⟨TYPE_FUNCTION, 0, 9107, UNUSED, UNUSED⟩,
  ⟨TYPE_FUNCTION, 0, 9108, UNUSED, UNUSED⟩,
  -- POWER (Roco Z21)
  ⟨TYPE_POWER, 0, 9999, POWEROFF, UNUSED⟩
]

end GAW_MR

/-- `char keys[ROWS][COLS]` of GAW_MR_controlpanel.h lines 7–16 (GAW_MR.h
lines 264–273 contain the identical table): the value returned for each
row/column crossing, a pointer into the element array. -/
def keys : List (List Int) := [
  [ 1,  2,  3,  4,  5,  6,  7,  8],
  [ 9, 10, 11, 12, 13, 14, 15, 16],
  [17, 18, 19, 20, 21, 22, 23, 24],
  [25, 26, 27, 28, 29, 30, 31, 32],
  [33, 34, 35, 36, 37, 38, 39, 40],
  [41, 42, 43, 44, 45, 46, 47, 48],
  [49, 50, 51, 52, 53, 54, 55, 56],
  [57, 58, 59, 60, 61, 62, 63, 64]
]

/-- The `address` field of each entry of `MCPINFO mcps[]`,
GAW_MR_multiplexer.h lines 30–39 (GAW_MR.h lines 315–324 are identical);
the `Adafruit_MCP23X17` driver object itself is hardware state and carries
no data of its own. Note entry 7 (0x27) is commented out in the source. -/
def mcpsAddresses : List Nat := [0x20, 0x21, 0x22, 0x23, 0x24, 0x25, 0x26]

/-- `int activeLoc = 0;` — GAW_MR_controlpanel.h line 35 (GAW_MR.h line 123):
the Active Locomotive Selector's default, 0 meaning none selected. -/
def activeLocDefault : Int := 0

/-- An unused reserved Switch slot: spec §4.2's "unused reserved Switch
slots (address 0)" (GAW_MR_layout.h lines 94–100, GAW_MR.h lines 201–207). -/
def reservedSlot (e : MR_data) : Prop := e.type = TYPE_SWITCH ∧ e.address = 0

/-- A Switch element's two stored states are complementary: one Straight and
the other Thrown (spec §3, §8). -/
def complementary (e : MR_data) : Prop :=
  (e.state = STRAIGHT ∧ e.state2 = THROWN) ∨ (e.state = THROWN ∧ e.state2 = STRAIGHT)

/-- Every Switch element of a table has complementary stored states. -/
def switchComplementary (t : List MR_data) : Prop :=
  ∀ e ∈ t, e.type = TYPE_SWITCH → complementary e

/-! ## LED Mirror addressing (spec §4.3)

Modelled from the spec: the arithmetic that maps a Switch's ordinal rank to a
port-expander chip and bit lives in the main sketch, which is not among the
source headers; the scheme is documented in GAW_MR_multiplexer.h's header
comment (pairs of MCP23017s, the even-address one for THROWN, the odd-address
one for STRAIGHT, sixteen switches per pair) and spec §4.3. -/

/-- Modelled from the spec: the chip pair owning the Switch at ordinal rank
`p` among Switch elements (0-based). -/
def ledPair (p : Nat) : Nat := p / 16

/-- Modelled from the spec: the bit offset of rank `p` within each chip of
its pair. -/
def ledBit (p : Nat) : Nat := p % 16

/-- Modelled from the spec: index into `mcps[]` of the chip carrying rank
`p`'s THROWN indicator (the even-address chip of the pair). -/
def thrownChip (p : Nat) : Nat := 2 * ledPair p

/-- Modelled from the spec: index into `mcps[]` of the chip carrying rank
`p`'s STRAIGHT indicator (the odd-address chip of the pair). -/
def straightChip (p : Nat) : Nat := 2 * ledPair p + 1

/-! ## Command Processor (spec §4.2)

Modelled from the spec: the transition function lives in the main sketch,
which is not among the source headers. -/

/-- The error taxonomy of spec §7 that the Command Processor itself reports. -/
inductive CmdError where
  | UnmappedKey
  | ReservedSlot
  | NoLocomotiveSelected
deriving DecidableEq

/-- The bus commands of spec §6 the Command Processor can emit. -/
inductive BusCmd where
  | setSwitch (address st : Int)
  | locoDirection (address dir : Int)
  | locoSpeed (address step : Int)
  | locoFunction (address fn : Int)
  | trackPower (v : Int)
deriving DecidableEq

/-- The panel's mutable state: the element table and the Active Locomotive
Selector (`activeLoc`, 0 = none selected, otherwise the 1-based key index of
the selected locomotive element). -/
structure PanelState where
  table : List MR_data
  activeLoc : Int
deriving DecidableEq

/-- Modelled from the spec: the new element value a press stores for a
Switch — `state` toggled between Straight and Thrown, `state2` set to the
complement (spec §4.2). -/
def toggleSwitch (e : MR_data) : MR_data :=
  let ns : Int := if e.state = STRAIGHT then THROWN else STRAIGHT
  { e with state := ns, state2 := (if ns = STRAIGHT then THROWN else STRAIGHT) }

/-- Modelled from the spec: the Command Processor's transition function
(spec §4.2) for a press on the element at 0-based table index `i`; the code
is in the main sketch, which is not among the source headers.  Per kind:
a Switch press toggles `state` and stores the complement in `state2`,
emitting a set-switch command — unless the slot is reserved (address 0), in
which case nothing changes and ReservedSlot is reported; a Locomotive press
selects that element into `activeLoc`; a locomotive-scoped Function press
(addresses FUNC_FORWARD..FUNC_TWOTONE) acts on the selected locomotive, or
reports NoLocomotiveSelected when none is; panel-level Functions
(store/recall/activate/show) do not mutate the table here; a Power press
toggles `state` and emits a track-power command. -/
def applyPress (s : PanelState) (i : Nat) :
    PanelState × Option BusCmd × Option CmdError :=
  match s.table[i]? with
  | none => (s, none, some CmdError.UnmappedKey)
  | some e =>
    if e.type = TYPE_SWITCH then
      if e.address = 0 then (s, none, some CmdError.ReservedSlot)
      else
        ({ s with table := s.table.set i (toggleSwitch e) },
         some (BusCmd.setSwitch e.address (toggleSwitch e).state), none)
    else if e.type = TYPE_LOCO then
      ({ s with activeLoc := (i : Int) + 1 }, none, none)
    else if e.type = TYPE_FUNCTION then
      if FUNC_FORWARD ≤ e.address ∧ e.address ≤ FUNC_TWOTONE then
        if s.activeLoc = 0 then (s, none, some CmdError.NoLocomotiveSelected)
        else
          let li := s.activeLoc.toNat - 1
          match s.table[li]? with
          | none => (s, none, some CmdError.UnmappedKey)
          | some loc =>
            if loc.type = TYPE_LOCO then
              if e.address = FUNC_FORWARD then
                ({ s with table := s.table.set li { loc with state := FORWARD } },
                 some (BusCmd.locoDirection loc.address FORWARD), none)
              else if e.address = FUNC_STOP then
                ({ s with table := s.table.set li { loc with state := STOP } },
                 some (BusCmd.locoDirection loc.address STOP), none)
              else if e.address = FUNC_REVERSE then
                ({ s with table := s.table.set li { loc with state := REVERSE } },
                 some (BusCmd.locoDirection loc.address REVERSE), none)
              else
                (s, some (BusCmd.locoFunction loc.address e.address), none)
            else (s, none, none)
      else (s, none, none)
    else if e.type = TYPE_POWER then
      let np : Int := if e.state = POWERON then POWEROFF else POWERON
      ({ s with table := s.table.set i { e with state := np } },
       some (BusCmd.trackPower np), none)
    else (s, none, none)

/-- Modelled from the spec: a speed change from the analog speed input
(spec §4.2, §6) sets the selected locomotive's `state2` (speed step) and
emits a speed command; with no locomotive selected it fails with
NoLocomotiveSelected and changes nothing.  The code is in the main sketch,
which is not among the source headers. -/
def applySpeed (s : PanelState) (step : Int) :
    PanelState × Option BusCmd × Option CmdError :=
  if s.activeLoc = 0 then (s, none, some CmdError.NoLocomotiveSelected)
  else
    let li := s.activeLoc.toNat - 1
    match s.table[li]? with
    | none => (s, none, some CmdError.UnmappedKey)
    | some loc =>
      if loc.type = TYPE_LOCO then
        ({ s with table := s.table.set li { loc with state2 := step } },
         some (BusCmd.locoSpeed loc.address step), none)
      else (s, none, none)

/-! ## Persistence Adapter (spec §4.4)

Modelled from the spec: the EEPROM save/recall code lives in the main
sketch, which is not among the source headers. -/

/-- The Persistence Adapter's error taxonomy (spec §4.4, §7). -/
inductive StorageError where
  | SizeMismatch
deriving DecidableEq

/-- Modelled from the spec: `save` serializes every element's mutable fields
(`state`, `state2`) in table order into the stored region, one record per
element. -/
def save (table : List MR_data) : List (Int × Int) :=
  table.map (fun e => (e.state, e.state2))

/-- Modelled from the spec: `load` applies the stored mutable fields back
onto the in-memory default table (never touching type/module/address); when
the stored region's implied element count differs from the live table's
length it is a no-op returning the table unchanged with SizeMismatch. -/
def load (dflt : List MR_data) (stored : List (Int × Int)) :
    List MR_data × Option StorageError :=
  if stored.length = dflt.length then
    ((dflt.zip stored).map (fun p => { p.1 with state := p.2.1, state2 := p.2.2 }),
     none)
  else (dflt, some StorageError.SizeMismatch)

/-! ## Decidability instances and shared lemmas -/

instance (e : MR_data) : Decidable (complementary e) := by
  unfold complementary
  infer_instance

instance (e : MR_data) : Decidable (reservedSlot e) := by
  unfold reservedSlot
  infer_instance

instance (t : List MR_data) : Decidable (switchComplementary t) := by
  unfold switchComplementary
  infer_instance

lemma complementary_toggleSwitch (e : MR_data) : complementary (toggleSwitch e) := by
  unfold toggleSwitch
  by_cases hes : e.state = STRAIGHT
  · simp [complementary, hes, STRAIGHT, THROWN]
  · simp [complementary, hes, STRAIGHT, THROWN]
    tauto

lemma switchComplementary_set {t : List MR_data} {k : Nat} {e' : MR_data}
    (hc : switchComplementary t)
    (he : e'.type = TYPE_SWITCH → complementary e') :
    switchComplementary (t.set k e') := by
  intro e hmem hsw
  rcases List.mem_or_eq_of_mem_set hmem with h | rfl
  · exact hc e h hsw
  · exact he hsw

/-! ## Claims -/

/-- C1: in both default Element Tables, the Switch elements occupy the lowest
contiguous index range — the first 32 entries are Switches, no entry after
them is a Switch, and whenever entry `i` is a Switch, every entry `j < i` is
a Switch too. -/
theorem switch_prefix_contiguous :
    ((∀ e ∈ GAW_MR_layout.element.take 32, e.type = TYPE_SWITCH)
     ∧ (∀ e ∈ GAW_MR_layout.element.drop 32, e.type ≠ TYPE_SWITCH))
    ∧ ((∀ e ∈ GAW_MR.element.take 32, e.type = TYPE_SWITCH)
     ∧ (∀ e ∈ GAW_MR.element.drop 32, e.type ≠ TYPE_SWITCH))
    ∧ (∀ i : Fin GAW_MR_layout.element.length,
        (GAW_MR_layout.element.get i).type = TYPE_SWITCH →
        ∀ j : Fin GAW_MR_layout.element.length, (j : Nat) < (i : Nat) →
          (GAW_MR_layout.element.get j).type = TYPE_SWITCH)
    ∧ (∀ i : Fin GAW_MR.element.length,
        (GAW_MR.element.get i).type = TYPE_SWITCH →
        ∀ j : Fin GAW_MR.element.length, (j : Nat) < (i : Nat) →
          (GAW_MR.element.get j).type = TYPE_SWITCH) := by
  decide

/-- C2: for a Switch at 0-based ordinal rank `p` among the table's 32 Switch
slots, the LED addressing resolves to chip pair `p / 16` with bit offset
`p % 16`; the pair's THROWN chip sits at the even I2C address
`0x20 + 2 * (p / 16)` and its STRAIGHT chip at the odd address one above, both
present in `mcps[]`; ranks 0 and 15 resolve to pair 0, rank 16 to pair 1 with
bit 0. -/
theorem led_addressing_by_rank (p : Nat)
    (hp : p < (GAW_MR_layout.element.filter (fun e => e.type == TYPE_SWITCH)).length) :
    ledPair p = p / 16 ∧ ledBit p = p % 16
    ∧ mcpsAddresses[thrownChip p]? = some (0x20 + 2 * ledPair p)
    ∧ (0x20 + 2 * ledPair p) % 2 = 0
    ∧ mcpsAddresses[straightChip p]? = some (0x20 + 2 * ledPair p + 1)
    ∧ (0x20 + 2 * ledPair p + 1) % 2 = 1
    ∧ ledPair 0 = 0 ∧ ledPair 15 = 0 ∧ ledPair 16 = 1 ∧ ledBit 16 = 0 := by
  have h32 :
      (GAW_MR_layout.element.filter (fun e => e.type == TYPE_SWITCH)).length = 32 := by
    decide
  rw [h32] at hp
  exact (by decide :
    ∀ q : Fin 32, ledPair q.1 = q.1 / 16 ∧ ledBit q.1 = q.1 % 16
      ∧ mcpsAddresses[thrownChip q.1]? = some (0x20 + 2 * ledPair q.1)
      ∧ (0x20 + 2 * ledPair q.1) % 2 = 0
      ∧ mcpsAddresses[straightChip q.1]? = some (0x20 + 2 * ledPair q.1 + 1)
      ∧ (0x20 + 2 * ledPair q.1 + 1) % 2 = 1
      ∧ ledPair 0 = 0 ∧ ledPair 15 = 0 ∧ ledPair 16 = 1 ∧ ledBit 16 = 0) ⟨p, hp⟩

/-- C2 witness: the mapping evaluated at rank 16: pair 1, bit 0, THROWN chip
at 0x22, STRAIGHT chip at 0x23. -/
theorem led_addressing_by_rank_at_16 :
    16 < (GAW_MR_layout.element.filter (fun e => e.type == TYPE_SWITCH)).length
    ∧ (ledPair 16 = 16 / 16 ∧ ledBit 16 = 16 % 16
       ∧ mcpsAddresses[thrownChip 16]? = some (0x20 + 2 * ledPair 16)
       ∧ (0x20 + 2 * ledPair 16) % 2 = 0
       ∧ mcpsAddresses[straightChip 16]? = some (0x20 + 2 * ledPair 16 + 1)
       ∧ (0x20 + 2 * ledPair 16 + 1) % 2 = 1
       ∧ ledPair 0 = 0 ∧ ledPair 15 = 0 ∧ ledPair 16 = 1 ∧ ledBit 16 = 0) :=
  ⟨by decide, led_addressing_by_rank 16 (by decide)⟩

/-- C3 (amended): a press through the Command Processor's transition keeps
every Switch's two states complementary whenever they were complementary
before, the pressed non-reserved Switch itself always ends complementary,
and GAW_MR.h's default table is complementary at startup.  (In
GAW_MR_layout.h's default table the Switch rows start with `state2 = 0`
equal to `state`, see the counterexample.) -/
theorem press_keeps_switch_states_complementary (s : PanelState) (i : Nat)
    (hc : switchComplementary s.table) :
    switchComplementary ((applyPress s i).1).table
    ∧ (∀ e, s.table[i]? = some e → e.type = TYPE_SWITCH → e.address ≠ 0 →
        ((applyPress s i).1).table[i]? = some (toggleSwitch e)
        ∧ complementary (toggleSwitch e))
    ∧ switchComplementary GAW_MR.element := by
  refine ⟨?_, ?_, by decide⟩
  · unfold applyPress
    rcases hm : s.table[i]? with _ | e
    · simpa using hc
    simp only [hm]
    by_cases h1 : e.type = TYPE_SWITCH
    · simp only [if_pos h1]
      by_cases h2 : e.address = 0
      · simp [h2, hc]
      · simp only [if_neg h2]
        exact switchComplementary_set hc (fun _ => complementary_toggleSwitch e)
    · simp only [if_neg h1]
      by_cases h3 : e.type = TYPE_LOCO
      · simp [if_pos h3, hc]
      simp only [if_neg h3]
      by_cases h4 : e.type = TYPE_FUNCTION
      · simp only [if_pos h4]
        by_cases h5 : FUNC_FORWARD ≤ e.address ∧ e.address ≤ FUNC_TWOTONE
        · simp only [if_pos h5]
          by_cases h6 : s.activeLoc = 0
          · simp [if_pos h6, hc]
          simp only [if_neg h6]
          rcases hm2 : s.table[s.activeLoc.toNat - 1]? with _ | loc
          · simp [hm2, hc]
          simp only [hm2]
          by_cases h7 : loc.type = TYPE_LOCO
          · simp only [if_pos h7]
            have hloc : ∀ st : Int,
                ({ loc with state := st } : MR_data).type = TYPE_SWITCH →
                complementary { loc with state := st } := by
              intro st habs
              simp only at habs
              rw [h7] at habs
              exact absurd habs (by decide)
            by_cases h8 : e.address = FUNC_FORWARD
            · simp only [if_pos h8]
              exact switchComplementary_set hc (hloc FORWARD)
            simp only [if_neg h8]
            by_cases h8b : e.address = FUNC_STOP
            · simp only [if_pos h8b]
              exact switchComplementary_set hc (hloc STOP)
            simp only [if_neg h8b]
            by_cases h8c : e.address = FUNC_REVERSE
            · simp only [if_pos h8c]
              exact switchComplementary_set hc (hloc REVERSE)
            · simp [if_neg h8c, hc]
          · simp [if_neg h7, hc]
        · simp [if_neg h5, hc]
      · simp only [if_neg h4]
        by_cases h9 : e.type = TYPE_POWER
        · simp only [if_pos h9]
          refine switchComplementary_set hc ?_
          intro habs
          exact absurd habs h1
        · simp [if_neg h9, hc]
  · intro e hm h1 h2
    have hi : i < s.table.length := by
      rcases List.getElem?_eq_some_iff.mp hm with ⟨h, _⟩
      exact h
    refine ⟨?_, complementary_toggleSwitch e⟩
    simp [applyPress, hm, h1, h2, List.getElem?_set, hi]

/-- C3 witness: the invariant instantiated on GAW_MR.h's default table with
no locomotive selected, pressing index 0. -/
theorem press_keeps_switch_states_complementary_at_0 :
    switchComplementary (PanelState.mk GAW_MR.element 0).table
    ∧ (switchComplementary
         ((applyPress (PanelState.mk GAW_MR.element 0) 0).1).table
       ∧ (∀ e, (PanelState.mk GAW_MR.element 0).table[0]? = some e →
           e.type = TYPE_SWITCH → e.address ≠ 0 →
           ((applyPress (PanelState.mk GAW_MR.element 0) 0).1).table[0]? =
             some (toggleSwitch e)
           ∧ complementary (toggleSwitch e))
       ∧ switchComplementary GAW_MR.element) :=
  ⟨by decide,
   press_keeps_switch_states_complementary (PanelState.mk GAW_MR.element 0) 0
     (by decide)⟩

/-- C3 counterexample: in GAW_MR_layout.h's default table the claim fails at
startup — entry 0 is a Switch whose `state` and `state2` are both 0. -/
theorem layout_switch_states_equal_at_startup :
    ¬ switchComplementary GAW_MR_layout.element
    ∧ (∃ e, GAW_MR_layout.element[0]? = some e
        ∧ e.type = TYPE_SWITCH ∧ e.state = e.state2) := by
  constructor
  · decide
  · exact ⟨mkLayout TYPE_SWITCH MODULE_NWW 101 STRAIGHT 0,
      by decide, by decide, by decide⟩

/-- C4 (amended): the key map is a static 8x8 table whose 64 values are
exactly the indices 1..64 (a bijection, with no unused keys and no
"no element" sentinel value); the Element Tables hold only 50
(GAW_MR_layout.h) and 49 (GAW_MR.h) entries, so the larger key values — for
example key (7,7) returning 64 — address the Element Table out of bounds. -/
theorem keymap_bijection_and_table_bounds :
    keys.flatten = (List.range 64).map (fun n => (n : Int) + 1)
    ∧ keys.length = 8 ∧ (∀ r ∈ keys, r.length = 8)
    ∧ GAW_MR_layout.element.length = 50 ∧ GAW_MR.element.length = 49
    ∧ (keys[7]?).bind (fun r => r[7]?) = some 64
    ∧ GAW_MR_layout.element[63]? = none := by
  decide

/-- C4 counterexample: key (7,7) returns 64, yet neither Element Table has an
entry at position 64 (nor at the 0-based position 63): the mapped index does
address the Element Table out of bounds. -/
theorem key64_out_of_bounds :
    (keys[7]?).bind (fun r => r[7]?) = some 64
    ∧ GAW_MR_layout.element[64 - 1]? = none
    ∧ GAW_MR_layout.element[64]? = none
    ∧ GAW_MR.element[64 - 1]? = none := by
  decide

/-- C5 (amended): reserved Switch slots are reachable from the Input Router
mapping — key (3,1) returns 26, and table entry 26 (0-based 25) is a reserved
slot — but a press applied to any reserved slot is a no-op: the state is
returned unchanged, no bus command is emitted, and ReservedSlot is
reported. -/
theorem reserved_slot_press_noop (s : PanelState) (i : Nat) (e : MR_data)
    (hm : s.table[i]? = some e) (hr : reservedSlot e) :
    applyPress s i = (s, none, some CmdError.ReservedSlot)
    ∧ (keys[3]?).bind (fun r => r[1]?) = some 26
    ∧ (∃ e', GAW_MR_layout.element[25]? = some e' ∧ reservedSlot e') := by
  obtain ⟨ht, ha⟩ := hr
  refine ⟨?_, by decide, ?_⟩
  · simp [applyPress, hm, ht, ha, TYPE_SWITCH]
  · exact ⟨mkLayout TYPE_SWITCH NO_MODULE 0 0 0, by decide, by decide, by decide⟩

/-- C5 witness: pressing the reserved slot at index 25 of GAW_MR_layout.h's
default table is a no-op that reports ReservedSlot. -/
theorem reserved_slot_press_noop_at_25 :
    ((PanelState.mk GAW_MR_layout.element 0).table[25]? =
       some (mkLayout TYPE_SWITCH NO_MODULE 0 0 0)
     ∧ reservedSlot (mkLayout TYPE_SWITCH NO_MODULE 0 0 0))
    ∧ (applyPress (PanelState.mk GAW_MR_layout.element 0) 25 =
         (PanelState.mk GAW_MR_layout.element 0, none, some CmdError.ReservedSlot)
       ∧ (keys[3]?).bind (fun r => r[1]?) = some 26
       ∧ (∃ e', GAW_MR_layout.element[25]? = some e' ∧ reservedSlot e')) :=
  ⟨⟨by decide, by decide⟩,
   reserved_slot_press_noop (PanelState.mk GAW_MR_layout.element 0) 25
     (mkLayout TYPE_SWITCH NO_MODULE 0 0 0) (by decide) (by decide)⟩

/-- C5 counterexample: the claim's reachability part is false — the key at
row 3, column 1 returns 26, and Element Table entry 26 (0-based index 25) is
a reserved Switch slot with address 0. -/
theorem reserved_slot_reachable_from_keymap :
    (keys[3]?).bind (fun r => r[1]?) = some 26
    ∧ (∃ e, GAW_MR_layout.element[25]? = some e ∧ reservedSlot e) := by
  constructor
  · decide
  · exact ⟨mkLayout TYPE_SWITCH NO_MODULE 0 0 0, by decide, by decide, by decide⟩

/-- C6: load after save reproduces the same `state`/`state2` sequence for any
live table whose length equals the default table it is loaded onto; and a
stored region whose implied element count differs from the live table's
length makes load fail with SizeMismatch, returning the table unchanged. -/
theorem save_load_roundtrip (t d : List MR_data) (h : t.length = d.length) :
    ((load d (save t)).2 = none
     ∧ ((load d (save t)).1).map (fun e => (e.state, e.state2))
        = t.map (fun e => (e.state, e.state2)))
    ∧ (∀ stored : List (Int × Int), stored.length ≠ d.length →
        load d stored = (d, some StorageError.SizeMismatch)) := by
  have hlen : (save t).length = d.length := by
    simp [save, h]
  refine ⟨⟨?_, ?_⟩, ?_⟩
  · simp [load, hlen]
  · rw [load, if_pos hlen, List.map_map]
    have hcomp : ((fun e : MR_data => (e.state, e.state2)) ∘
        (fun p : MR_data × Int × Int =>
          { p.1 with state := p.2.1, state2 := p.2.2 })) = Prod.snd := by
      funext p
      rfl
    rw [hcomp, List.map_snd_zip]
    · rfl
    · rw [hlen]
  · intro stored hne
    simp [load, hne]

/-- C6 witness: the round trip evaluated on GAW_MR_layout.h's default
table. -/
theorem save_load_roundtrip_on_layout :
    GAW_MR_layout.element.length = GAW_MR_layout.element.length
    ∧ (((load GAW_MR_layout.element (save GAW_MR_layout.element)).2 = none
        ∧ ((load GAW_MR_layout.element (save GAW_MR_layout.element)).1).map
            (fun e => (e.state, e.state2))
          = GAW_MR_layout.element.map (fun e => (e.state, e.state2)))
       ∧ (∀ stored : List (Int × Int),
            stored.length ≠ GAW_MR_layout.element.length →
            load GAW_MR_layout.element stored =
              (GAW_MR_layout.element, some StorageError.SizeMismatch))) :=
  ⟨rfl, save_load_roundtrip GAW_MR_layout.element GAW_MR_layout.element rfl⟩

/-- C7: a locomotive-scoped function press (forward/stop/reverse/lights/
sound/whistle/horn/two-tone, addresses 9101..9108) arriving while the Active
Locomotive Selector still holds its default "none selected" value reports
NoLocomotiveSelected, emits no bus command and leaves the table unchanged;
the same holds for a speed change from the analog input. -/
theorem loco_function_requires_selection (s : PanelState) (i : Nat) (e : MR_data)
    (hm : s.table[i]? = some e) (ht : e.type = TYPE_FUNCTION)
    (hlo : FUNC_FORWARD ≤ e.address) (hhi : e.address ≤ FUNC_TWOTONE)
    (ha : s.activeLoc = activeLocDefault) :
    applyPress s i = (s, none, some CmdError.NoLocomotiveSelected)
    ∧ (∀ step : Int,
        applySpeed s step = (s, none, some CmdError.NoLocomotiveSelected)) := by
  constructor
  · simp [applyPress, hm, ht, ha, activeLocDefault, TYPE_FUNCTION, TYPE_SWITCH,
      TYPE_LOCO, hlo, hhi]
  · intro step
    simp [applySpeed, ha, activeLocDefault]

/-- C7 witness: pressing the Forward function (table index 41, address 9101)
of GAW_MR_layout.h's default table with `activeLoc` at its default 0. -/
theorem loco_function_requires_selection_at_41 :
    ((PanelState.mk GAW_MR_layout.element activeLocDefault).table[41]? =
       some (mkLayout TYPE_FUNCTION NO_MODULE FUNC_FORWARD 0 0)
     ∧ (mkLayout TYPE_FUNCTION NO_MODULE FUNC_FORWARD 0 0).type = TYPE_FUNCTION
     ∧ FUNC_FORWARD ≤ (mkLayout TYPE_FUNCTION NO_MODULE FUNC_FORWARD 0 0).address
     ∧ (mkLayout TYPE_FUNCTION NO_MODULE FUNC_FORWARD 0 0).address ≤ FUNC_TWOTONE)
    ∧ (applyPress (PanelState.mk GAW_MR_layout.element activeLocDefault) 41 =
         (PanelState.mk GAW_MR_layout.element activeLocDefault, none,
          some CmdError.NoLocomotiveSelected)
       ∧ (∀ step : Int,
           applySpeed (PanelState.mk GAW_MR_layout.element activeLocDefault) step =
             (PanelState.mk GAW_MR_layout.element activeLocDefault, none,
              some CmdError.NoLocomotiveSelected))) :=
  ⟨⟨by decide, by decide, by decide, by decide⟩,
   loco_function_requires_selection
     (PanelState.mk GAW_MR_layout.element activeLocDefault) 41
     (mkLayout TYPE_FUNCTION NO_MODULE FUNC_FORWARD 0 0)
     (by decide) (by decide) (by decide) (by decide) rfl⟩

/-- C8 (amended): within each kind, addresses are unique among all elements
carrying a nonzero address — in both tables the list of (type, address)
pairs over nonzero-address entries has no duplicate — but the seven reserved
Switch slots all share address 0, so uniqueness does not extend to them. -/
theorem addresses_unique_within_kind_outside_reserved :
    (((GAW_MR_layout.element.filter (fun e => e.address != 0)).map
        (fun e => (e.type, e.address))).Nodup
     ∧ (GAW_MR_layout.element.filter
         (fun e => e.type == TYPE_SWITCH && e.address == 0)).length = 7)
    ∧ (((GAW_MR.element.filter (fun e => e.address != 0)).map
        (fun e => (e.type, e.address))).Nodup
     ∧ (GAW_MR.element.filter
         (fun e => e.type == TYPE_SWITCH && e.address == 0)).length = 7) := by
  decide

/-- C8 counterexample: entries 25 and 26 of GAW_MR_layout.h's table are two
distinct elements of the same kind (Switch) with the same address 0. -/
theorem reserved_slots_share_address_zero :
    ∃ e e', GAW_MR_layout.element[25]? = some e
      ∧ GAW_MR_layout.element[26]? = some e'
      ∧ e.type = e'.type ∧ e.address = e'.address :=
  ⟨mkLayout TYPE_SWITCH NO_MODULE 0 0 0, mkLayout TYPE_SWITCH NO_MODULE 0 0 0,
   by decide, by decide, rfl, rfl⟩

/-- C9: the direction values under GAW_MR_layout.h's `byte`-typed `state`
field: Stopped (0) and Forward (1) read back unchanged, but Reverse (-1)
wraps to 255 and does not read back equal to the value stored — the code's
own comment ("state = -1 = reverse") contradicts the field's declared
type. -/
theorem byte_state_field_wraps_reverse :
    byteField STOP = STOP ∧ byteField FORWARD = FORWARD
    ∧ byteField REVERSE = 255 ∧ byteField REVERSE ≠ REVERSE
    ∧ (mkLayout TYPE_LOCO NO_MODULE 344 REVERSE 0).state = 255
    ∧ REVERSE = -1 := by
  decide

/-- C10 (amended): the two `element[]` definitions do not define the same
table.  They agree on (type, address, state) for the first 37 entries (the
32 Switch slots and 5 locomotives), but GAW_MR_layout.h has 50 entries while
GAW_MR.h has 49 (one general Function fewer), the Switch rows' `state2`
defaults differ (0 versus Thrown), the Function address sets differ
(9001..9004 versus 9001..9003 before the loc functions), and the Power
entry starts On in GAW_MR_layout.h but Off in GAW_MR.h. -/
theorem element_tables_agreements_and_differences :
    GAW_MR_layout.element.length = 50 ∧ GAW_MR.element.length = 49
    ∧ (GAW_MR_layout.element.take 37).map (fun e => (e.type, e.address, e.state))
      = (GAW_MR.element.take 37).map (fun e => (e.type, e.address, e.state))
    ∧ (∀ e ∈ GAW_MR_layout.element.take 32, e.state2 = 0)
    ∧ (∀ e ∈ GAW_MR.element.take 32, e.state2 = THROWN)
    ∧ (GAW_MR_layout.element.filter (fun e => e.type == TYPE_FUNCTION)).map
        (fun e => e.address)
      = [9001, 9002, 9003, 9004, 9101, 9102, 9103, 9104, 9105, 9106, 9107, 9108]
    ∧ (GAW_MR.element.filter (fun e => e.type == TYPE_FUNCTION)).map
        (fun e => e.address)
      = [9001, 9002, 9003, 9101, 9102, 9103, 9104, 9105, 9106, 9107, 9108]
    ∧ (GAW_MR_layout.element[49]?).map (fun e => e.state) = some POWERON
    ∧ (GAW_MR.element[48]?).map (fun e => e.state) = some POWEROFF := by
  decide

/-- C10 counterexample: the two tables differ — their lengths are 50 and 49,
and already at index 0 the Switch `state2` defaults disagree (0 in
GAW_MR_layout.h, Thrown in GAW_MR.h). -/
theorem element_tables_differ_in_length :
    GAW_MR_layout.element.length ≠ GAW_MR.element.length
    ∧ (GAW_MR_layout.element[0]?).map (fun e => e.state2) = some 0
    ∧ (GAW_MR.element[0]?).map (fun e => e.state2) = some THROWN := by
  decide

end GAWMRControl
